import Mathlib

/-!
Verification development for the bbmon attack-surface monitor.

This file gives a shallow embedding, in Lean, of the core snapshot /
classification / diff / escalation logic of the monitor:

* `flag_target`, `probe_url` (src/modules/http_monitor.py),
* `classify_url` (src/modules/wayback_analyzer.py),
* `verify_takeover` (src/modules/subdomain_finder.py),
* `compare_baselines` (src/monitor.py),
* the priority-determination logic of `notify_changes`
  (src/modules/notifier.py), called `escalate` below.

Python dicts holding heterogeneous optional fields are embedded as Lean
structures whose optional keys become `Option` fields; Python sets and
dicts become lists with explicit dedup / first-key lookup, with a fixed
(hence deterministic) iteration order standing in for Python's
unspecified set order; float percentage arithmetic is embedded exactly
over `ℚ`; code that swallows exceptions is embedded as total functions
over an explicit outcome/oracle argument.
-/

set_option linter.unusedVariables false

namespace BBMon

/-! ## String helpers

Python's substring test `pat in s` is embedded as `strContains s pat`,
computed on the character lists. -/

/-- Boolean test that `pat` occurs at the very start of `s`. -/
def charListStartsWith : List Char → List Char → Bool
  | [], _ => true
  | _ :: _, [] => false
  | a :: as, b :: bs => a == b && charListStartsWith as bs

/-- Boolean test that `pat` occurs as a contiguous run somewhere in `s`. -/
def charListSub (pat : List Char) : List Char → Bool
  | [] => charListStartsWith pat []
  | b :: bs => charListStartsWith pat (b :: bs) || charListSub pat bs

/-- Embedding of Python's `pat in s` substring test. -/
def strContains (s pat : String) : Bool :=
  charListSub pat.toList s.toList

/-- Embedding of Python's `str.lower`, computed on the character list
(ASCII case folding; every string the monitor lowercases against its
ASCII keyword and signature tables is affected identically). -/
def strLower (s : String) : String :=
  String.mk (s.toList.map Char.toLower)

/-! ## Flags and probe records (src/modules/http_monitor.py)

A flag is one of the dicts appended by `HTTPMonitor.flag_target` or by
the error handlers of `HTTPMonitor.probe_url`.  Keys that only some
flags carry are `Option` fields defaulting to `none` (absent key). -/

/-- One flag dict.  The source key `'type'` is the `type` field; a flag
built by an error handler carries only `type` and `message`, so every
other field defaults to `none`. -/
structure Flag where
  type : String
  category : Option String := none
  keyword : Option String := none
  technology : Option String := none
  status_code : Option Int := none
  message : String
  severity : Option String := none
deriving Repr, DecidableEq, Inhabited

/-- Test used throughout the source: `f.get('severity') == 'high'`. -/
def highSeverity (f : Flag) : Bool :=
  f.severity == some "high"

/-- One probe-result dict as built by `HTTPMonitor.probe_url` and stored
as an endpoint record of a baseline.  `headers` keeps the response
header names (the source only ever tests key membership on the headers
dict); `body_length` is the value of the source's
`get('body_length', get('content_length', 0))` lookup.  The wall-clock
`timestamp` key is outside the model. -/
structure ProbeResult where
  url : String
  status_code : Option Int
  body_length : Nat
  title : String
  technologies : List String
  headers : List String
  server : String
  redirects : List String
  content_hash : String
  flags : List Flag
  reachable : Bool
deriving Repr, DecidableEq, Inhabited

/-- `HTTPMonitor.high_value_keywords`, in declaration order. -/
def high_value_keywords : List (String × List String) :=
  [("admin", ["admin", "administrator", "console", "dashboard", "panel", "manage"]),
   ("auth", ["login", "signin", "authenticate", "auth", "sso", "oauth"]),
   ("backup", ["backup", "bak", "old", "archive", "dump", "sql"]),
   ("dev", ["dev", "development", "test", "staging", "debug", "beta"]),
   ("api", ["api", "graphql", "rest", "endpoint", "swagger", "docs"]),
   ("upload", ["upload", "uploader", "file", "attachment", "media"]),
   ("sensitive", ["config", "env", "secret", "key", "token", "password"]),
   ("internal", ["internal", "private", "corp", "vpn", "intranet"])]

/-- `HTTPMonitor.outdated_tech`, in declaration order. -/
def outdated_tech : List (String × List String) :=
  [("Apache", ["2.4.49", "2.4.50"]),
   ("nginx", ["1.18.0", "1.19.0"]),
   ("PHP", ["7.3", "7.4", "5.6"]),
   ("WordPress", ["5.8", "5.9"]),
   ("jQuery", ["1.", "2.", "3.0", "3.1", "3.2"]),
   ("Drupal", ["7.", "8."]),
   ("Joomla", ["3."]),
   ("IIS", ["8.5", "10.0"])]

/-- `HTTPMonitor.interesting_statuses`. -/
def interesting_statuses : List (Int × String) :=
  [(200, "OK"), (201, "Created"), (204, "No Content"),
   (301, "Moved Permanently"), (302, "Found (Redirect)"),
   (307, "Temporary Redirect"), (308, "Permanent Redirect"),
   (400, "Bad Request"), (401, "Unauthorized"), (403, "Forbidden"),
   (404, "Not Found"), (405, "Method Not Allowed"),
   (500, "Internal Server Error"), (502, "Bad Gateway"),
   (503, "Service Unavailable")]

/-- The source's `self.interesting_statuses.get(status, 'Unknown')`. -/
def statusMeaning (s : Int) : String :=
  (interesting_statuses.lookup s).getD "Unknown"

/-- The flag one category of the URL keyword loop produces: the first
keyword contained in the lowercased URL yields one flag, whose severity
is `high` exactly for the categories admin, backup, upload. -/
def urlCatFlag (urlLower : String) (ck : String × List String) : Option Flag :=
  match ck.2.find? (fun kw => strContains urlLower kw) with
  | some kw => some
      { type := "high_value", category := some ck.1, keyword := some kw,
        message := "High-value target: " ++ ck.1 ++ " (" ++ kw ++ " in URL)",
        severity := some (if ["admin", "backup", "upload"].contains ck.1
                          then "high" else "medium") }
  | none => none

/-- High-value keyword scan of the URL, over all categories in order. -/
def urlKeywordFlags (urlLower : String) : List Flag :=
  high_value_keywords.filterMap (urlCatFlag urlLower)

/-- The flag one category of the title keyword loop produces: same
per-category first-match rule, but the source hard-codes severity
`'medium'` here. -/
def titleCatFlag (titleLower : String) (ck : String × List String) : Option Flag :=
  match ck.2.find? (fun kw => strContains titleLower kw) with
  | some kw => some
      { type := "high_value", category := some ck.1, keyword := some kw,
        message := "High-value target: " ++ ck.1 ++ " (" ++ kw ++ " in title)",
        severity := some "medium" }
  | none => none

/-- High-value keyword scan of the title, over all categories in order. -/
def titleKeywordFlags (titleLower : String) : List Flag :=
  high_value_keywords.filterMap (titleCatFlag titleLower)

/-- The flag one (technology string, product) pair of the outdated-tech
loops produces: when the product name occurs case-insensitively in the
technology string, the first listed vulnerable version contained in the
string yields one `outdated_tech` flag. -/
def techPairFlag (tech : String) (tv : String × List String) : Option Flag :=
  if strContains (strLower tech) (strLower tv.1) then
    match tv.2.find? (fun v => strContains tech v) with
    | some _ => some
        { type := "outdated_tech", technology := some tech,
          message := "Outdated/vulnerable technology: " ++ tech,
          severity := some "high" }
    | none => none
  else none

/-- Outdated-technology scan over all detected technology strings. -/
def techFlags (technologies : List String) : List Flag :=
  technologies.flatMap fun tech => outdated_tech.filterMap (techPairFlag tech)

/-- Interesting-status flag: only for 401, 403, 500, 502, 503.  The
severity expression still inspects 404, as in the source. -/
def statusFlags (status : Option Int) : List Flag :=
  match status with
  | some s =>
      if [(401 : Int), 403, 500, 502, 503].contains s then
        [{ type := "status", status_code := some s,
           message := "Interesting status: " ++ toString s ++ " - " ++ statusMeaning s,
           severity := some (if s == 404 then "low" else "medium") }]
      else []
  | none => []

/-- The fixed security-header list of `flag_target`. -/
def security_headers : List String :=
  ["X-Frame-Options", "X-Content-Type-Options",
   "Strict-Transport-Security", "Content-Security-Policy"]

/-- Missing-security-headers flag, emitted only on status 200. -/
def securityFlags (status : Option Int) (headers : List String) : List Flag :=
  let missing := security_headers.filter (fun h => !headers.contains h)
  if !missing.isEmpty && status == some 200 then
    [{ type := "security",
       message := "Missing security headers: " ++ String.intercalate ", " missing,
       severity := some "low" }]
  else []

/-- Redirect flag, emitted when the record saw any redirect hop. -/
def redirectFlags (redirects : List String) : List Flag :=
  if !redirects.isEmpty then
    [{ type := "redirect",
       message := "Redirects detected: " ++ toString redirects.length ++ " hop(s)",
       severity := some "low" }]
  else []

/-- Directory-listing flag, on status 200 with "index of" in the title. -/
def dirListingFlags (status : Option Int) (titleLower : String) : List Flag :=
  if status == some 200 && strContains titleLower "index of" then
    [{ type := "directory_listing", message := "Possible directory listing",
       severity := some "medium" }]
  else []

/-- The fixed default-page title list of `flag_target`. -/
def default_titles : List String :=
  ["apache", "nginx", "welcome", "default page", "test page", "it works"]

/-- Default-page flag. -/
def defaultPageFlags (titleLower : String) : List Flag :=
  if default_titles.any (fun dt => strContains titleLower dt) then
    [{ type := "default_page", message := "Default/test page detected",
       severity := some "low" }]
  else []

/-- Embedding of `HTTPMonitor.flag_target`
(src/modules/http_monitor.py:208-302): the flag lists of the eight
independent rules, concatenated in source order. -/
def flag_target (url : String) (result : ProbeResult) : List Flag :=
  let urlLower := strLower url
  let titleLower := strLower result.title
  urlKeywordFlags urlLower
    ++ titleKeywordFlags titleLower
    ++ techFlags result.technologies
    ++ statusFlags result.status_code
    ++ securityFlags result.status_code result.headers
    ++ redirectFlags result.redirects
    ++ dirListingFlags result.status_code titleLower
    ++ defaultPageFlags titleLower

/-! ## Baselines and the snapshot differ (src/monitor.py)

A baseline JSON document keeps `subdomains` as a dict whose keys are the
subdomain names (embedded as the key list), `endpoints` and
`javascript_files` as dicts (embedded as association lists looked up by
first key, as Python dicts have unique keys), and `subdomain_takeovers`
as a plain list. -/

/-- One `javascript_files` entry: extracted endpoints and content hash. -/
structure JsFileData where
  endpoints : List String
  hash : String
deriving Repr, DecidableEq, Inhabited

/-- One subdomain-takeover candidate dict as produced by
`SubdomainFinder.check_takeover_signature`, with the keys added by
`SubdomainFinder.verify_takeover` optional. -/
structure TakeoverCandidate where
  subdomain : String
  cname : String
  service : String
  confidence : String
  url : Option String := none
  status_code : Option Int := none
  fingerprint : Option String := none
deriving Repr, DecidableEq, Inhabited

/-- A baseline document (the fields `compare_baselines` reads). -/
structure Baseline where
  domain : String
  timestamp : String
  subdomains : List String
  endpoints : List (String × ProbeResult)
  javascript_files : List (String × JsFileData)
  subdomain_takeovers : List TakeoverCandidate
deriving Repr, DecidableEq, Inhabited

/-- Python `list(set(xs) - set(ys))`: the members of `xs` outside `ys`,
deduplicated.  Python's set iteration order is unspecified; we fix the
first-occurrence order of `xs`. -/
def setDiff (xs ys : List String) : List String :=
  (xs.filter (fun x => !ys.contains x)).dedup

/-- Python `xs & ys` on key sets, in first-occurrence order of `xs`. -/
def setInter (xs ys : List String) : List String :=
  (xs.filter (fun x => ys.contains x)).dedup

/-- Python `m[k]` on an embedded dict: first binding of `k`.  The differ
only indexes with keys known to be present, so the default is inert. -/
def lookupD {α : Type} [Inhabited α] (k : String) (m : List (String × α)) : α :=
  match m.lookup k with
  | some v => v
  | none => default

/-- The last takeover entry carrying a given subdomain key.  Python's
`{t['subdomain']: t for t in ...}` dict comprehension keeps the last
entry for a repeated key. -/
def lastWithSubdomain (ts : List TakeoverCandidate) (k : String) : Option TakeoverCandidate :=
  (ts.filter (fun t => t.subdomain == k)).getLast?

/-- The per-endpoint field-delta dict built inside the endpoint loop of
`compare_baselines`; each absent key is `none`.  The `body_length`
delta stores (old, new, exact diff percentage) — the source rounds the
float percentage to two decimals only for display in the report. -/
structure EndpointChanges where
  status_code : Option (Option Int × Option Int) := none
  title : Option (String × String) := none
  body_length : Option (Nat × Nat × ℚ) := none
  technologies : Option (List String × List String) := none
  new_flags : Option (List Flag) := none
deriving Repr, DecidableEq, Inhabited

/-- Python truthiness of the `endpoint_changes` dict: it has no keys. -/
def EndpointChanges.isEmpty (ec : EndpointChanges) : Bool :=
  ec.status_code.isNone && ec.title.isNone && ec.body_length.isNone
    && ec.technologies.isNone && ec.new_flags.isNone

/-- Embedding of the endpoint loop body of `BBMonitor.compare_baselines`
(src/monitor.py:397-448), for one URL present in both baselines. -/
def computeEndpointChanges (old_data new_data : ProbeResult) : EndpointChanges :=
  let sc := if old_data.status_code = new_data.status_code then none
            else some (old_data.status_code, new_data.status_code)
  let ti := if old_data.title = new_data.title then none
            else some (old_data.title, new_data.title)
  let old_length := old_data.body_length
  let new_length := new_data.body_length
  let bl :=
    if 0 < old_length then
      let length_diff_percent : ℚ :=
        |((new_length : ℚ) - (old_length : ℚ))| / (old_length : ℚ) * 100
      if 10 < length_diff_percent then
        some (old_length, new_length, length_diff_percent)
      else none
    else none
  let added_tech := (new_data.technologies.filter
      (fun t => !old_data.technologies.contains t)).dedup
  let removed_tech := (old_data.technologies.filter
      (fun t => !new_data.technologies.contains t)).dedup
  let te := if added_tech.isEmpty && removed_tech.isEmpty then none
            else some (added_tech, removed_tech)
  let high_flags := new_data.flags.filter highSeverity
  let nf := if high_flags.isEmpty then none else some high_flags
  { status_code := sc, title := ti, body_length := bl,
    technologies := te, new_flags := nf }

/-- One entry of the `changed_endpoints` list. -/
structure ChangedEndpoint where
  url : String
  changes : EndpointChanges
  old : ProbeResult
  new : ProbeResult
deriving Repr, DecidableEq, Inhabited

/-- One iteration of the endpoint loop of `compare_baselines`: the
entry appended for a URL present in both baselines, `none` when the
delta dict stays empty. -/
def endpointDelta (oldEndpoints newEndpoints : List (String × ProbeResult))
    (endpoint : String) : Option ChangedEndpoint :=
  let old_data := lookupD endpoint oldEndpoints
  let new_data := lookupD endpoint newEndpoints
  let endpoint_changes := computeEndpointChanges old_data new_data
  if endpoint_changes.isEmpty then none
  else some { url := endpoint, changes := endpoint_changes,
              old := old_data, new := new_data }

/-- One iteration of the JS-file loop of `compare_baselines`: for a JS
file present in both baselines whose hash changed, the new endpoints
extracted from it (`none` when the hash is unchanged or nothing new). -/
def jsDelta (oldJs newJs : List (String × JsFileData))
    (js_file : String) : Option (String × List String) :=
  let o := lookupD js_file oldJs
  let n := lookupD js_file newJs
  if o.hash ≠ n.hash then
    let new_eps := (n.endpoints.filter (fun e => !o.endpoints.contains e)).dedup
    if !new_eps.isEmpty then some (js_file, new_eps) else none
  else none

/-- The change report of `BBMonitor.compare_baselines`. -/
structure ChangeSet where
  new_subdomains : List String
  removed_subdomains : List String
  new_endpoints : List String
  removed_endpoints : List String
  changed_endpoints : List ChangedEndpoint
  new_js_files : List String
  changed_js_files : List String
  new_js_endpoints : List String
  new_takeovers : List TakeoverCandidate
  resolved_takeovers : List String
deriving Repr, DecidableEq, Inhabited

/-- Embedding of `BBMonitor.compare_baselines` (src/monitor.py:362-477).
The unused `domain` argument is kept from the source signature (it is
only printed there). -/
def compare_baselines (domain : String) (old new' : Baseline) : ChangeSet :=
  let old_subs := old.subdomains
  let new_subs := new'.subdomains
  let old_tk_keys := (old.subdomain_takeovers.map (·.subdomain)).dedup
  let new_tk_keys := (new'.subdomain_takeovers.map (·.subdomain)).dedup
  let old_endpoints := old.endpoints.map Prod.fst
  let new_endpoints := new'.endpoints.map Prod.fst
  let changed_endpoints :=
    (setInter old_endpoints new_endpoints).filterMap
      (endpointDelta old.endpoints new'.endpoints)
  let old_js := old.javascript_files.map Prod.fst
  let new_js := new'.javascript_files.map Prod.fst
  let jsChanges :=
    (setInter old_js new_js).filterMap
      (jsDelta old.javascript_files new'.javascript_files)
  { new_subdomains := setDiff new_subs old_subs
    removed_subdomains := setDiff old_subs new_subs
    new_endpoints := setDiff new_endpoints old_endpoints
    removed_endpoints := setDiff old_endpoints new_endpoints
    changed_endpoints := changed_endpoints
    new_js_files := setDiff new_js old_js
    changed_js_files := jsChanges.map Prod.fst
    new_js_endpoints := jsChanges.flatMap Prod.snd
    new_takeovers := (setDiff new_tk_keys old_tk_keys).filterMap
      (lastWithSubdomain new'.subdomain_takeovers)
    resolved_takeovers := setDiff old_tk_keys new_tk_keys }

/-! ## Severity escalation (src/modules/notifier.py)

`Notifier.notify_changes` determines a notification priority from the
change set (lines 685-712): two booleans `critical_priority` and
`high_priority` are accumulated over the change types and the final
level is critical / high / normal.  The spec calls this reduction
`escalate`. -/

/-- The notification priority level. -/
inductive NotifyPriority
  | normal
  | high
  | critical
deriving Repr, DecidableEq, Inhabited

/-- The order normal < high < critical as a numeric level. -/
def NotifyPriority.level : NotifyPriority → Nat
  | .normal => 0
  | .high => 1
  | .critical => 2

/-- Embedding of the priority determination of `Notifier.notify_changes`
(src/modules/notifier.py:685-712): the final values of the
`critical_priority` / `high_priority` booleans and the level they
select. -/
def escalate (changes : ChangeSet) : NotifyPriority :=
  let hasHighFlag := changes.changed_endpoints.any fun endpoint_change =>
    (endpoint_change.changes.new_flags.getD []).any highSeverity
  let critical_priority := !changes.new_takeovers.isEmpty || hasHighFlag
  let high_priority := critical_priority
    || !changes.new_subdomains.isEmpty
    || !changes.new_endpoints.isEmpty
    || changes.changed_endpoints.any
        (fun endpoint_change => endpoint_change.changes.status_code.isSome)
  if critical_priority then .critical
  else if high_priority then .high
  else .normal

/-! ## Takeover verification (src/modules/subdomain_finder.py)

`SubdomainFinder.verify_takeover` fetches each candidate's subdomain
over https then http inside a `try` that swallows every exception, and
appends the candidate to its result only when a response body contains
one of the matched service's fingerprints.  The HTTP layer is embedded
as an oracle `fetch : String → Option FetchResp`, where `none` is a
fetch that raised (timeout, connection error, ...). -/

/-- The parts of a `requests` response that `verify_takeover` reads. -/
structure FetchResp where
  status_code : Int
  text : String
deriving Repr, DecidableEq, Inhabited

/-- `SubdomainFinder.takeover_signatures`, in declaration order:
service name, CNAME substrings, response-body fingerprint substrings. -/
def takeover_signatures : List (String × List String × List String) :=
  [("github", ["github.io", "github.map.fastly.net"],
    ["There isn\x27t a GitHub Pages site here", "For root URLs"]),
   ("heroku", ["herokuapp.com", "herokussl.com"],
    ["no-such-app.html", "No such app"]),
   ("shopify", ["myshopify.com"],
    ["Sorry, this shop is currently unavailable"]),
   ("tumblr", ["tumblr.com"],
    ["Whatever you were looking for doesn\x27t currently exist"]),
   ("wordpress", ["wordpress.com"],
    ["Do you want to register"]),
   ("desk", ["desk.com"],
    ["Please try again or try Desk.com free for"]),
   ("fastly", ["fastly.net"],
    ["Fastly error: unknown domain"]),
   ("feedpress", ["redirect.feedpress.me"],
    ["The feed has not been found"]),
   ("ghost", ["ghost.io"],
    ["The thing you were looking for is no longer here"]),
   ("pantheon", ["pantheonsite.io"],
    ["404 error unknown site"]),
   ("surge", ["surge.sh"],
    ["project not found"]),
   ("bitbucket", ["bitbucket.io"],
    ["Repository not found"]),
   ("uservoice", ["uservoice.com"],
    ["This UserVoice subdomain is currently unavailable"]),
   ("statuspage", ["statuspage.io"],
    ["Status page doesn\x27t exist", "You are being"]),
   ("zendesk", ["zendesk.com"],
    ["Help Center Closed"]),
   ("vercel", ["vercel.app", "now.sh"],
    ["The deployment could not be found", "DEPLOYMENT_NOT_FOUND"]),
   ("netlify", ["netlify.app", "netlify.com"],
    ["Not Found - Request ID"]),
   ("aws_s3", ["s3.amazonaws.com", "s3-website"],
    ["NoSuchBucket", "The specified bucket does not exist"]),
   ("azure", ["azurewebsites.net", "cloudapp.azure.com", "cloudapp.net"],
    ["404 Web Site not found", "Error 404"]),
   ("readme", ["readme.io"],
    ["Project doesnt exist... yet!"]),
   ("cargo", ["cargocollective.com"],
    ["404 Not Found"]),
   ("webflow", ["proxy.webflow.com", "proxy-ssl.webflow.com"],
    ["The page you are looking for doesn\x27t exist or has been moved"])]

/-- `self.takeover_signatures[service]['response']`.  Candidates always
carry a service produced from the same table, so the `[]` default for an
unknown key (a `KeyError` in Python) is never reached by the monitor. -/
def responseSignatures (service : String) : List String :=
  match takeover_signatures.lookup service with
  | some sigs => sigs.2
  | none => []

/-- The f-string `f"{protocol}://{subdomain}"`. -/
def protocolUrl (protocol subdomain : String) : String :=
  protocol ++ "://" ++ subdomain

/-- Outcome of one protocol iteration of the `verify_takeover` loop. -/
inductive ProtocolAttempt
  | errored
  | noMatch
  | matched (t' : TakeoverCandidate)
deriving Repr, DecidableEq, Inhabited

/-- One iteration of the protocol loop: a raised fetch is `errored`
(the `except: continue`); a response whose lowercased body contains no
fingerprint of the candidate's service is `noMatch`; otherwise the
candidate is promoted to high confidence with the protocol URL, status
code and first matching fingerprint recorded, as the source mutates it. -/
def tryProtocol (fetch : String → Option FetchResp)
    (t : TakeoverCandidate) (protocol : String) : ProtocolAttempt :=
  match fetch (protocolUrl protocol t.subdomain) with
  | none => .errored
  | some response =>
      let content := response.text
      match (responseSignatures t.service).find?
          (fun signature => strContains (strLower content) (strLower signature)) with
      | some signature => .matched
          { t with confidence := "high",
                   url := some (protocolUrl protocol t.subdomain),
                   status_code := some response.status_code,
                   fingerprint := some signature }
      | none => .noMatch

/-- The appended candidate of one protocol iteration: only a
fingerprint match contributes to the result list. -/
def protocolResult (a : ProtocolAttempt) : Option TakeoverCandidate :=
  match a with
  | .matched t' => some t'
  | _ => none

/-- The per-candidate body of `verify_takeover`: https is tried first;
on a match the promoted candidate is appended and the loop breaks; a
successful fetch with no match only moves on to http when the candidate
is not already at high confidence (the source's
`if takeover.get('confidence') == 'high': break` re-check); a raised
fetch always moves on.  A candidate with no match on either protocol is
not appended at all. -/
def verifyOne (fetch : String → Option FetchResp)
    (t : TakeoverCandidate) : Option TakeoverCandidate :=
  match tryProtocol fetch t "https" with
  | .matched t' => some t'
  | .noMatch => if t.confidence == "high" then none
                else protocolResult (tryProtocol fetch t "http")
  | .errored => protocolResult (tryProtocol fetch t "http")

/-- Embedding of `SubdomainFinder.verify_takeover`
(src/modules/subdomain_finder.py:376-416). -/
def verify_takeover (fetch : String → Option FetchResp)
    (potential_takeovers : List TakeoverCandidate) : List TakeoverCandidate :=
  potential_takeovers.filterMap (verifyOne fetch)

/-! ## URL probing (src/modules/http_monitor.py:79-139)

`HTTPMonitor.probe_url` builds the default record, then either fills it
from the HTTP response inside a `try`, or appends a single error flag in
one of the three exception handlers.  The network call together with the
response post-processing done by external libraries (content hashing,
HTML title extraction, technology detection) is embedded as an explicit
outcome value. -/

/-- A successful fetch: the response fields `probe_url` copies into the
record, with the externally computed hash, title and technology list. -/
structure HttpSuccess where
  status_code : Int
  body_length : Nat
  headers : List String
  server : String
  history : List String
  content_hash : String
  title : String
  technologies : List String
deriving Repr, DecidableEq, Inhabited

/-- How the guarded body of `probe_url` ended. -/
inductive ProbeOutcome
  | success (resp : HttpSuccess)
  | timeout
  | connectionError
  | exception (msg : String)
deriving Repr, DecidableEq, Inhabited

/-- The initial `result` dict of `probe_url`. -/
def emptyProbe (url : String) : ProbeResult :=
  { url := url, status_code := none, body_length := 0, title := "",
    technologies := [], headers := [], server := "", redirects := [],
    content_hash := "", flags := [], reachable := false }

/-- Embedding of `HTTPMonitor.probe_url` (src/modules/http_monitor.py:
79-139).  On success the record is filled and flagged via
`flag_target`; each handler appends exactly one severity-less `error`
flag to the otherwise untouched default record and no exception escapes. -/
def probe_url (url : String) (outcome : ProbeOutcome) : ProbeResult :=
  match outcome with
  | .success resp =>
      let r0 := { emptyProbe url with
        status_code := some resp.status_code,
        body_length := resp.body_length,
        headers := resp.headers,
        server := resp.server,
        reachable := true,
        redirects := resp.history,
        content_hash := resp.content_hash,
        title := resp.title,
        technologies := resp.technologies }
      { r0 with flags := flag_target url r0 }
  | .timeout =>
      { emptyProbe url with flags := [{ type := "error", message := "Timeout" }] }
  | .connectionError =>
      { emptyProbe url with flags := [{ type := "error", message := "Connection Error" }] }
  | .exception msg =>
      { emptyProbe url with flags := [{ type := "error", message := msg }] }

/-! ## Historical-URL classification (src/modules/wayback_analyzer.py)

`WaybackAnalyzer.classify_url` parses the URL with `urllib.parse.
urlparse`, matches it against `self.file_categories`, extracts query
parameter names with `parse_qs`, and computes a priority and a score. -/

/-- Split a character list at the first occurrence of `c`: the part
before, and `some` of the part after when `c` occurs. -/
def splitFirst (c : Char) : List Char → List Char × Option (List Char)
  | [] => ([], none)
  | x :: xs =>
      if x == c then ([], some xs)
      else
        let r := splitFirst c xs
        (x :: r.1, r.2)

/-- The components of `urllib.parse.urlparse` that `classify_url` uses. -/
structure ParsedUrl where
  scheme : String
  netloc : String
  path : String
  query : String
  fragment : String
deriving Repr, DecidableEq, Inhabited

/-- A character allowed after the first letter of a URL scheme. -/
def isSchemeChar (c : Char) : Bool :=
  c.isAlphanum || c == '+' || c == '-' || c == '.'

/-- Embedding of `urllib.parse.urlparse` as far as `classify_url` needs
it: the scheme is split off first (only when everything before the
first `:` looks like a scheme), then a `//`-introduced netloc running to
the next `/`, `?` or `#`, then the fragment after the first `#`, then
the query after the first `?`.  Python parses the path's last-segment
parameters and percent escapes further; neither is read by
`classify_url`'s callers modelled here, and both are left as-is. -/
def urlparse (url : String) : ParsedUrl :=
  let cs := url.toList
  let (scheme, rest1) :=
    match splitFirst ':' cs with
    | (before, some after) =>
        if !before.isEmpty
            && (before.headD ' ').isAlpha
            && before.all isSchemeChar
        then (before.map Char.toLower, after)
        else ([], cs)
    | (_, none) => ([], cs)
  let (netloc, rest2) :=
    match rest1 with
    | '/' :: '/' :: tl =>
        (tl.takeWhile (fun c => c ≠ '/' && c ≠ '?' && c ≠ '#'),
         tl.dropWhile (fun c => c ≠ '/' && c ≠ '?' && c ≠ '#'))
    | _ => ([], rest1)
  let (rest3, fragment) :=
    match splitFirst '#' rest2 with
    | (before, some after) => (before, after)
    | (before, none) => (before, [])
  let (path, query) :=
    match splitFirst '?' rest3 with
    | (before, some after) => (before, after)
    | (before, none) => (before, [])
  { scheme := String.mk scheme, netloc := String.mk netloc,
    path := String.mk path, query := String.mk query,
    fragment := String.mk fragment }

/-- One entry of `WaybackAnalyzer.file_categories`. -/
structure CategoryRule where
  name : String
  extensions : List String
  keywords : List String
  priority : String
deriving Repr, DecidableEq, Inhabited

/-- `WaybackAnalyzer.file_categories`, in declaration order. -/
def file_categories : List CategoryRule :=
  [{ name := "backup",
     extensions := [".bak", ".backup", ".old", ".orig", ".save", ".swp", ".tmp",
                    ".~", ".copy", ".db.bak", ".sql.bak", ".tar.gz", ".zip", ".rar"],
     keywords := ["backup", "old", "copy", "archive", "dump"],
     priority := "high" },
   { name := "database",
     extensions := [".sql", ".db", ".sqlite", ".sqlite3", ".mdb", ".accdb",
                    ".pdb", ".dbf", ".dump"],
     keywords := ["database", "dump", "export", "mysql", "postgres", "mongodb"],
     priority := "high" },
   { name := "config",
     extensions := [".conf", ".config", ".cfg", ".ini", ".env", ".yml", ".yaml",
                    ".properties", ".xml", ".json", ".toml"],
     keywords := ["config", "configuration", "settings", "env", "environment"],
     priority := "high" },
   { name := "source_code",
     extensions := [".php", ".asp", ".aspx", ".jsp", ".java", ".py", ".rb",
                    ".pl", ".cgi", ".sh", ".bat", ".ps1"],
     keywords := ["source", "src", "code"],
     priority := "medium" },
   { name := "documents",
     extensions := [".pdf", ".doc", ".docx", ".xls", ".xlsx", ".ppt", ".pptx",
                    ".odt", ".ods", ".odp", ".rtf", ".txt", ".csv"],
     keywords := ["document", "report", "spreadsheet", "presentation"],
     priority := "medium" },
   { name := "credentials",
     extensions := [".key", ".pem", ".p12", ".pfx", ".jks", ".keystore",
                    ".crt", ".cer", ".der"],
     keywords := ["password", "passwd", "pwd", "credential", "secret",
                  "key", "token", "auth", "certificate", "private"],
     priority := "critical" },
   { name := "logs",
     extensions := [".log", ".logs", ".out", ".err", ".trace"],
     keywords := ["log", "logs", "error", "debug", "trace"],
     priority := "medium" },
   { name := "api_docs",
     extensions := [".wsdl", ".wadl", ".raml", ".swagger", ".openapi"],
     keywords := ["api", "swagger", "openapi", "graphql", "rest", "soap"],
     priority := "high" },
   { name := "version_control",
     extensions := [".git", ".svn", ".hg", ".bzr"],
     keywords := ["git", "svn", "mercurial", "bazaar", ".git/config"],
     priority := "critical" },
   { name := "sensitive",
     extensions := [],
     keywords := ["admin", "dashboard", "panel", "console", "cpanel",
                  "phpmyadmin", "upload", "backup", "test", "dev", "staging"],
     priority := "high" }]

/-- `WaybackAnalyzer.interesting_params`. -/
def interesting_params : List String :=
  ["id", "user", "username", "email", "file", "path", "url", "redirect",
   "next", "return", "callback", "debug", "admin", "token", "api_key",
   "key", "secret", "password", "query", "search", "q", "page", "redirect_uri"]

/-- The source's `priority_levels` dict, with its `.get(_, 0)` default. -/
def priority_levels (p : String) : Nat :=
  if p == "critical" then 4
  else if p == "high" then 3
  else if p == "medium" then 2
  else if p == "low" then 1
  else 0

/-- The extension derivation of `classify_url`: when the (lowercased)
path contains a dot, a dot followed by everything after the last dot
(`'.' + path.split('.')[-1]`), else the key stays `None`. -/
def fileExtension (path : String) : Option String :=
  if path.toList.contains '.' then
    some ("." ++ String.mk ((path.toList.reverse.takeWhile (· ≠ '.')).reverse))
  else none

/-- Whether one category rule matches: an extension match (exact or
path suffix, only tried when an extension was derived), otherwise any
keyword occurring in the lowercased path or query. -/
def ruleMatches (path query : String) (ext? : Option String)
    (rule : CategoryRule) : Bool :=
  (match ext? with
   | some e => rule.extensions.any (fun x => e == x || path.endsWith x)
   | none => false)
  || rule.keywords.any (fun kw => strContains path kw || strContains query kw)

/-- One iteration of the category loop of `classify_url`: a matched
rule appends its name and raises the running priority exactly when its
level is strictly greater. -/
def classifyStep (path query : String) (ext? : Option String)
    (st : List String × String) (rule : CategoryRule) : List String × String :=
  if ruleMatches path query ext? rule then
    (st.1 ++ [rule.name],
     if priority_levels rule.priority > priority_levels st.2
     then rule.priority else st.2)
  else st

/-- The parameter-name extraction `list(parse_qs(query).keys())`:
chunks between `&`, keeping the part before the first `=` of each chunk
that has a non-empty value (`parse_qs` drops blank values by default),
with repeated names collapsed to their first occurrence (dict keys).
The percent-decoding `parse_qs` also performs is left as-is; no input
below relies on it. -/
def queryParamNames (query : String) : List String :=
  (((query.toList.splitOn '&').filterMap fun chunk =>
      match splitFirst '=' chunk with
      | (_, none) => none
      | (name, some value) =>
          if value.isEmpty then none else some (String.mk name))).dedup

/-- The record returned by `classify_url`. -/
structure UrlClassification where
  url : String
  categories : List String
  priority : String
  file_extension : Option String
  has_parameters : Bool
  parameter_names : List String
  interesting_params : List String
  path_parts : List String
  score : Nat
deriving Repr, DecidableEq, Inhabited

/-- Embedding of `WaybackAnalyzer.classify_url`
(src/modules/wayback_analyzer.py:153-234). -/
def classify_url (url : String) : UrlClassification :=
  let parsed := urlparse url
  let path := strLower parsed.path
  let query := strLower parsed.query
  let ext? := fileExtension path
  let st := file_categories.foldl (classifyStep path query ext?) ([], "low")
  let parameter_names :=
    if parsed.query ≠ "" then queryParamNames parsed.query else []
  let interesting := parameter_names.filter
    (fun param => interesting_params.contains (strLower param))
  let score := st.1.length * 10 + interesting.length * 5
    + (if st.2 == "critical" then 50
       else if st.2 == "high" then 30
       else if st.2 == "medium" then 10
       else 0)
  { url := url, categories := st.1, priority := st.2, file_extension := ext?,
    has_parameters := parsed.query ≠ "", parameter_names := parameter_names,
    interesting_params := interesting,
    path_parts := parsed.path.splitOn "/", score := score }

/-! ## Shared lemmas -/

/-- Filtering a list by non-membership in itself leaves nothing. -/
theorem filter_not_contains_self (l : List String) :
    l.filter (fun x => !l.contains x) = [] := by
  refine List.filter_eq_nil_iff.mpr ?_
  intro a ha
  simpa using ha

/-- Filtering a list by membership in itself keeps everything. -/
theorem filter_contains_self (l : List String) :
    l.filter (fun x => l.contains x) = l := by
  refine List.filter_eq_self.mpr ?_
  intro a ha
  simpa using ha

/-- The set difference of a key list with itself is empty. -/
theorem setDiff_self (l : List String) : setDiff l l = [] := by
  unfold setDiff
  rw [filter_not_contains_self]
  rfl

/-- The set intersection of a key list with itself is its dedup. -/
theorem setInter_self (l : List String) : setInter l l = l.dedup := by
  unfold setInter
  rw [filter_contains_self]

/-- With pairwise-distinct keys, `lookup` returns the stored binding. -/
theorem lookup_eq_of_nodup {α : Type} (l : List (String × α)) (k : String) (v : α)
    (hnd : (l.map Prod.fst).Nodup) (hm : (k, v) ∈ l) : l.lookup k = some v := by
  induction l with
  | nil => cases hm
  | cons hd tl ih =>
      obtain ⟨k1, v1⟩ := hd
      rcases List.mem_cons.mp hm with heq | htl
      · rw [show k1 = k from (Prod.mk.injEq .. ▸ heq.symm :
            k1 = k ∧ v1 = v).1, show v1 = v from (Prod.mk.injEq .. ▸ heq.symm :
            k1 = k ∧ v1 = v).2]
        simp [List.lookup]
      · have hk : k ∈ tl.map Prod.fst := List.mem_map.mpr ⟨(k, v), htl, rfl⟩
        have hnd2 : (k1 :: tl.map Prod.fst).Nodup := by
          rw [List.map_cons] at hnd
          exact hnd
        have hnd' := List.nodup_cons.mp hnd2
        have hne : k1 ≠ k := fun heq => hnd'.1 (heq ▸ hk)
        have hbeq : (k == k1) = false := by simp [Ne.symm hne]
        simp only [List.lookup, hbeq]
        exact ih hnd'.2 htl

/-- A present key looks up to a binding that is in the list. -/
theorem lookupD_mem {α : Type} [Inhabited α] (l : List (String × α)) (k : String)
    (hk : k ∈ l.map Prod.fst) : (k, lookupD k l) ∈ l := by
  induction l with
  | nil => simp at hk
  | cons hd tl ih =>
      obtain ⟨k1, v1⟩ := hd
      by_cases heq : k = k1
      · subst heq
        have hl : lookupD k ((k, v1) :: tl) = v1 := by
          simp [lookupD, List.lookup]
        rw [hl]
        exact List.mem_cons_self _ _
      · have hk' : k ∈ tl.map Prod.fst := by
          rcases List.mem_map.mp hk with ⟨p, hp, hfst⟩
          rcases List.mem_cons.mp hp with rfl | hptl
          · exact absurd hfst.symm heq
          · exact List.mem_map.mpr ⟨p, hptl, hfst⟩
        have hbeq : (k == k1) = false := by simp [heq]
        have hstep : lookupD k ((k1, v1) :: tl) = lookupD k tl := by
          simp [lookupD, List.lookup, hbeq]
        rw [hstep]
        exact List.mem_cons_of_mem _ (ih hk')

/-! ## C6: the score formula of classify_url -/

/-- Priority bonus exactly as the claim states it:
critical 50, high 30, medium 10, low (or anything else) 0. -/
def priorityBonus (p : String) : Nat :=
  if p = "critical" then 50
  else if p = "high" then 30
  else if p = "medium" then 10
  else 0

/-- C6: For every URL, the score returned by classify_url equals 10
times the number of matched categories, plus 5 times the number of
interesting parameters found, plus a bonus determined by the final
priority: 50 for critical, 30 for high, 10 for medium, 0 for low. -/
theorem classify_url_score_formula (url : String) :
    (classify_url url).score =
      10 * (classify_url url).categories.length
        + 5 * (classify_url url).interesting_params.length
        + priorityBonus (classify_url url).priority := by
  simp only [classify_url, priorityBonus, beq_iff_eq]
  split_ifs <;> ring

/-! ## C9: escalation is monotonic in takeovers -/

/-- C9: any ChangeSet with a non-empty new_takeovers list escalates to
critical, and adding a new_takeovers entry to an arbitrary ChangeSet
never yields a lower severity (normal < high < critical) than the same
ChangeSet without it. -/
theorem escalate_takeover_critical_monotone :
    (∀ c : ChangeSet, c.new_takeovers ≠ [] → escalate c = NotifyPriority.critical) ∧
    (∀ (c : ChangeSet) (t : TakeoverCandidate),
      (escalate c).level ≤
        (escalate { c with new_takeovers := t :: c.new_takeovers }).level) := by
  have hcrit : ∀ c : ChangeSet, c.new_takeovers ≠ [] →
      escalate c = NotifyPriority.critical := by
    intro c hc
    have hne : c.new_takeovers.isEmpty = false := by
      simpa [List.isEmpty_iff] using hc
    simp [escalate, hne]
  refine ⟨hcrit, ?_⟩
  intro c t
  have h1 : escalate { c with new_takeovers := t :: c.new_takeovers } =
      NotifyPriority.critical := hcrit _ (by simp)
  rw [h1]
  cases hc : escalate c <;> simp [NotifyPriority.level]

/-- Witness for C9 at a concrete ChangeSet with one takeover. -/
theorem escalate_takeover_critical_monotone_witness :
    escalate
      { new_subdomains := [], removed_subdomains := [], new_endpoints := [],
        removed_endpoints := [], changed_endpoints := [], new_js_files := [],
        changed_js_files := [], new_js_endpoints := [],
        new_takeovers := [{ subdomain := "old-app.example.com",
                            cname := "old-app.herokuapp.com",
                            service := "heroku", confidence := "medium" }],
        resolved_takeovers := [] } = NotifyPriority.critical :=
  escalate_takeover_critical_monotone.1 _ (by decide)

/-! ## C7: the body-length significance threshold -/

/-- C7: the differ emits a body_length delta iff the old body length is
strictly positive and the relative change |new − old| / old * 100 is
strictly greater than 10; an old length of zero is skipped entirely. -/
theorem body_length_delta_iff (od nd : ProbeResult) :
    (((computeEndpointChanges od nd).body_length).isSome ↔
      (0 < od.body_length ∧
        10 < |((nd.body_length : ℚ)) - ((od.body_length : ℚ))|
              / ((od.body_length : ℚ)) * 100)) ∧
    (od.body_length = 0 → (computeEndpointChanges od nd).body_length = none) := by
  constructor
  · simp only [computeEndpointChanges]
    split_ifs with h1 h2
    · simp [h1, h2]
    · simp [h1, h2]
    · simp [h1]
  · intro h0
    simp only [computeEndpointChanges]
    rw [if_neg]
    omega

/-- Witness for C7: a zero old length produces no body_length delta. -/
theorem body_length_delta_iff_witness :
    (computeEndpointChanges (emptyProbe "https://a.example")
      { emptyProbe "https://a.example" with body_length := 5000 }).body_length = none :=
  (body_length_delta_iff (emptyProbe "https://a.example")
    { emptyProbe "https://a.example" with body_length := 5000 }).2 rfl

/-! ## C10: the error path of probe_url -/

/-- C10: a probe that fails with a timeout, connection error, or any
other exception returns (never raises) a record with reachable false
and status_code none whose flags list is exactly one error-kind flag
carrying no severity; such a flag never passes the severity == high
test, so it never appears in the differ's new_flags deltas. -/
theorem probe_url_error_record (url : String) (outcome : ProbeOutcome)
    (h : ∀ resp, outcome ≠ ProbeOutcome.success resp) :
    (probe_url url outcome).reachable = false ∧
    (probe_url url outcome).status_code = none ∧
    (∃ m, (probe_url url outcome).flags = [{ type := "error", message := m }]) ∧
    (∀ f ∈ (probe_url url outcome).flags, f.severity = none) ∧
    (probe_url url outcome).flags.filter highSeverity = [] ∧
    (∀ od : ProbeResult,
      (computeEndpointChanges od (probe_url url outcome)).new_flags = none) := by
  cases outcome with
  | success resp => exact absurd rfl (h resp)
  | timeout =>
      refine ⟨rfl, rfl, ⟨"Timeout", rfl⟩, ?_, rfl, fun od => rfl⟩
      intro f hf
      simp only [probe_url, emptyProbe, List.mem_singleton] at hf
      subst hf
      rfl
  | connectionError =>
      refine ⟨rfl, rfl, ⟨"Connection Error", rfl⟩, ?_, rfl, fun od => rfl⟩
      intro f hf
      simp only [probe_url, emptyProbe, List.mem_singleton] at hf
      subst hf
      rfl
  | exception msg =>
      refine ⟨rfl, rfl, ⟨msg, rfl⟩, ?_, rfl, fun od => rfl⟩
      intro f hf
      simp only [probe_url, emptyProbe, List.mem_singleton] at hf
      subst hf
      rfl

/-- Witness for C10 at a concrete timed-out probe. -/
theorem probe_url_error_record_witness :
    (probe_url "https://u.example" ProbeOutcome.timeout).reachable = false ∧
    (probe_url "https://u.example" ProbeOutcome.timeout).status_code = none :=
  ⟨(probe_url_error_record "https://u.example" ProbeOutcome.timeout
      (fun resp hresp => ProbeOutcome.noConfusion hresp)).1,
   (probe_url_error_record "https://u.example" ProbeOutcome.timeout
      (fun resp hresp => ProbeOutcome.noConfusion hresp)).2.1⟩

/-! ## Flag-rule component lemmas -/

/-- Every flag of the URL keyword scan has type high_value. -/
theorem urlKeywordFlags_type {u : String} {f : Flag}
    (hf : f ∈ urlKeywordFlags u) : f.type = "high_value" := by
  rcases List.mem_filterMap.mp hf with ⟨ck, hck, hval⟩
  cases hfind : ck.2.find? (fun kw => strContains u kw) with
  | none => simp [urlCatFlag, hfind] at hval
  | some kw =>
      simp only [urlCatFlag, hfind, Option.some.injEq] at hval
      subst hval
      rfl

/-- Every flag of the title keyword scan has type high_value and
severity medium. -/
theorem titleKeywordFlags_type {u : String} {f : Flag}
    (hf : f ∈ titleKeywordFlags u) :
    f.type = "high_value" ∧ f.severity = some "medium" := by
  rcases List.mem_filterMap.mp hf with ⟨ck, hck, hval⟩
  cases hfind : ck.2.find? (fun kw => strContains u kw) with
  | none => simp [titleCatFlag, hfind] at hval
  | some kw =>
      simp only [titleCatFlag, hfind, Option.some.injEq] at hval
      subst hval
      exact ⟨rfl, rfl⟩

/-- Every flag of the outdated-technology scan has type outdated_tech. -/
theorem techFlags_type {ts : List String} {f : Flag}
    (hf : f ∈ techFlags ts) : f.type = "outdated_tech" := by
  rcases List.mem_flatMap.mp hf with ⟨tech, htech, hmem⟩
  rcases List.mem_filterMap.mp hmem with ⟨tv, htv, hval⟩
  unfold techPairFlag at hval
  split at hval
  · cases hfind : tv.2.find? (fun v => strContains tech v) with
    | none => rw [hfind] at hval; cases hval
    | some v =>
        rw [hfind] at hval
        simp only [Option.some.injEq] at hval
        subst hval
        rfl
  · cases hval

/-- The status-flag component fully characterised. -/
theorem mem_statusFlags {st : Option Int} {f : Flag}
    (hf : f ∈ statusFlags st) :
    ∃ s, st = some s ∧ s ∈ [(401 : Int), 403, 500, 502, 503] ∧
      f.type = "status" ∧
      f.severity = some (if s == 404 then "low" else "medium") := by
  cases st with
  | none =>
      rw [show statusFlags none = [] from rfl] at hf
      cases hf
  | some s =>
      rw [show statusFlags (some s)
            = if [(401 : Int), 403, 500, 502, 503].contains s then
                [{ type := "status", status_code := some s,
                   message := "Interesting status: " ++ toString s ++ " - "
                     ++ statusMeaning s,
                   severity := some (if s == 404 then "low" else "medium") }]
              else [] from rfl] at hf
      by_cases hc : ([(401 : Int), 403, 500, 502, 503].contains s) = true
      · rw [if_pos hc] at hf
        simp only [List.mem_singleton] at hf
        subst hf
        exact ⟨s, rfl, List.elem_iff.mp hc, rfl, rfl⟩
      · rw [if_neg hc] at hf
        cases hf

/-- A status in the triggering set is never 404. -/
theorem triggering_ne_404 {s : Int}
    (h : s ∈ [(401 : Int), 403, 500, 502, 503]) : (s == 404) = false := by
  simp only [List.mem_cons, List.not_mem_nil, or_false] at h
  rcases h with rfl | rfl | rfl | rfl | rfl <;> rfl

/-- Every flag of the security-header rule has type security. -/
theorem securityFlags_type {st : Option Int} {hs : List String} {f : Flag}
    (hf : f ∈ securityFlags st hs) : f.type = "security" := by
  simp only [securityFlags] at hf
  split at hf
  · simp only [List.mem_singleton] at hf
    subst hf
    rfl
  · cases hf

/-- Every flag of the redirect rule has type redirect. -/
theorem redirectFlags_type {rs : List String} {f : Flag}
    (hf : f ∈ redirectFlags rs) : f.type = "redirect" := by
  simp only [redirectFlags] at hf
  split at hf
  · simp only [List.mem_singleton] at hf
    subst hf
    rfl
  · cases hf

/-- Every flag of the directory-listing rule has that type. -/
theorem dirListingFlags_type {st : Option Int} {t : String} {f : Flag}
    (hf : f ∈ dirListingFlags st t) : f.type = "directory_listing" := by
  simp only [dirListingFlags] at hf
  split at hf
  · simp only [List.mem_singleton] at hf
    subst hf
    rfl
  · cases hf

/-- Every flag of the default-page rule has type default_page. -/
theorem defaultPageFlags_type {t : String} {f : Flag}
    (hf : f ∈ defaultPageFlags t) : f.type = "default_page" := by
  simp only [defaultPageFlags] at hf
  split at hf
  · simp only [List.mem_singleton] at hf
    subst hf
    rfl
  · cases hf

/-! ## C4: the status flag rule -/

/-- C4: flag_target emits a status-kind flag iff the status code is one
of 401, 403, 500, 502, 503, and every status flag has severity medium;
in particular status 404 never receives a status flag and no triggering
status yields severity low. -/
theorem flag_target_status_rule (url : String) (r : ProbeResult) :
    ((∃ f ∈ flag_target url r, f.type = "status") ↔
      (∃ s, r.status_code = some s ∧ s ∈ [(401 : Int), 403, 500, 502, 503])) ∧
    (∀ f ∈ flag_target url r, f.type = "status" → f.severity = some "medium") := by
  have hsplit : ∀ f : Flag, f ∈ flag_target url r →
      f.type = "status" →
      ∃ s, r.status_code = some s ∧ s ∈ [(401 : Int), 403, 500, 502, 503] ∧
        f.severity = some "medium" := by
    intro f hf htype
    simp only [flag_target, List.mem_append] at hf
    rcases hf with ((((((hf | hf) | hf) | hf) | hf) | hf) | hf) | hf
    · exact absurd (urlKeywordFlags_type hf ▸ htype) (by decide)
    · exact absurd ((titleKeywordFlags_type hf).1 ▸ htype) (by decide)
    · exact absurd (techFlags_type hf ▸ htype) (by decide)
    · rcases mem_statusFlags hf with ⟨s, hst, hmem, _, hsev⟩
      exact ⟨s, hst, hmem, by rw [hsev, triggering_ne_404 hmem]; rfl⟩
    · exact absurd (securityFlags_type hf ▸ htype) (by decide)
    · exact absurd (redirectFlags_type hf ▸ htype) (by decide)
    · exact absurd (dirListingFlags_type hf ▸ htype) (by decide)
    · exact absurd (defaultPageFlags_type hf ▸ htype) (by decide)
  constructor
  · constructor
    · rintro ⟨f, hf, htype⟩
      rcases hsplit f hf htype with ⟨s, hst, hmem, _⟩
      exact ⟨s, hst, hmem⟩
    · rintro ⟨s, hst, hmem⟩
      refine ⟨{ type := "status", status_code := some s,
                message := "Interesting status: " ++ toString s ++ " - " ++ statusMeaning s,
                severity := some (if s == 404 then "low" else "medium") },
              ?_, rfl⟩
      simp only [flag_target, List.mem_append]
      refine Or.inl (Or.inl (Or.inl (Or.inl (Or.inr ?_))))
      rw [hst]
      rw [show statusFlags (some s)
            = if [(401 : Int), 403, 500, 502, 503].contains s then
                [{ type := "status", status_code := some s,
                   message := "Interesting status: " ++ toString s ++ " - "
                     ++ statusMeaning s,
                   severity := some (if s == 404 then "low" else "medium") }]
              else [] from rfl]
      rw [if_pos (List.elem_iff.mpr hmem)]
      exact List.mem_singleton.mpr rfl
  · intro f hf htype
    rcases hsplit f hf htype with ⟨_, _, _, hsev⟩
    exact hsev

/-- Witness for C4 at a concrete record with status 403. -/
theorem flag_target_status_rule_witness :
    ∃ f ∈ flag_target "https://zz.example"
        { emptyProbe "https://zz.example" with status_code := some 403 },
      f.type = "status" :=
  (flag_target_status_rule "https://zz.example"
      { emptyProbe "https://zz.example" with status_code := some 403 }).1.mpr
    ⟨403, rfl, by decide⟩

/-! ## C3: high-value keyword flags

The claim asserts the severity rule (high for admin/backup/upload, else
medium) for URL **and** title matches alike; the source hard-codes
severity medium for every title match, so a title-only admin match
refutes the claim. -/

/-- A record whose title contains the admin keyword "dashboard", probed
at a URL containing no high-value keyword. -/
def titleOnlyAdminRecord : ProbeResult :=
  { emptyProbe "https://t.example/zz" with title := "Operations Dashboard" }

/-- C3 counterexample: this record matches the admin group (keyword
"dashboard" in the title), so the claim demands a high-severity admin
flag; flag_target emits the admin flag only at severity medium. -/
theorem flag_target_high_value_counterexample :
    (∃ f ∈ flag_target "https://t.example/zz" titleOnlyAdminRecord,
        f.type = "high_value" ∧ f.category = some "admin") ∧
    ¬ (∃ f ∈ flag_target "https://t.example/zz" titleOnlyAdminRecord,
        f.type = "high_value" ∧ f.category = some "admin" ∧
          f.severity = some "high") := by
  decide

/-- C3 (amended): a keyword match in the URL yields a high_value flag
of the group with severity high for admin, backup, upload and medium
otherwise; a keyword match in the title yields a high_value flag of the
group whose severity is always medium. -/
theorem flag_target_high_value_rule (url : String) (r : ProbeResult)
    (cat : String) (kws : List String)
    (hmem : (cat, kws) ∈ high_value_keywords) :
    ((∃ kw ∈ kws, strContains (strLower url) kw = true) →
      ∃ f ∈ flag_target url r, f.type = "high_value" ∧ f.category = some cat ∧
        f.severity = some (if ["admin", "backup", "upload"].contains cat
                           then "high" else "medium")) ∧
    ((∃ kw ∈ kws, strContains (strLower r.title) kw = true) →
      ∃ f ∈ flag_target url r, f.type = "high_value" ∧ f.category = some cat ∧
        f.severity = some "medium") := by
  constructor
  · rintro ⟨kw, hkw, hc⟩
    have hsome : (kws.find? (fun kw => strContains (strLower url) kw)).isSome :=
      List.find?_isSome.mpr ⟨kw, hkw, hc⟩
    obtain ⟨kw', hfind⟩ := Option.isSome_iff_exists.mp hsome
    refine ⟨{ type := "high_value", category := some cat, keyword := some kw',
              message := "High-value target: " ++ cat ++ " (" ++ kw' ++ " in URL)",
              severity := some (if ["admin", "backup", "upload"].contains cat
                                then "high" else "medium") }, ?_, rfl, rfl, rfl⟩
    simp only [flag_target, List.mem_append]
    refine Or.inl (Or.inl (Or.inl (Or.inl (Or.inl (Or.inl (Or.inl ?_))))))
    refine List.mem_filterMap.mpr ⟨(cat, kws), hmem, ?_⟩
    simp only [urlCatFlag]
    rw [hfind]
  · rintro ⟨kw, hkw, hc⟩
    have hsome : (kws.find? (fun kw => strContains (strLower r.title) kw)).isSome :=
      List.find?_isSome.mpr ⟨kw, hkw, hc⟩
    obtain ⟨kw', hfind⟩ := Option.isSome_iff_exists.mp hsome
    refine ⟨{ type := "high_value", category := some cat, keyword := some kw',
              message := "High-value target: " ++ cat ++ " (" ++ kw' ++ " in title)",
              severity := some "medium" }, ?_, rfl, rfl, rfl⟩
    simp only [flag_target, List.mem_append]
    refine Or.inl (Or.inl (Or.inl (Or.inl (Or.inl (Or.inl (Or.inr ?_))))))
    refine List.mem_filterMap.mpr ⟨(cat, kws), hmem, ?_⟩
    simp only [titleCatFlag]
    rw [hfind]

/-- Witness for C3 (amended) at a URL containing "admin". -/
theorem flag_target_high_value_rule_witness :
    ∃ f ∈ flag_target "https://h.example/admin"
        (emptyProbe "https://h.example/admin"),
      f.type = "high_value" ∧ f.category = some "admin" ∧
        f.severity = some (if ["admin", "backup", "upload"].contains "admin"
                           then "high" else "medium") :=
  (flag_target_high_value_rule "https://h.example/admin"
      (emptyProbe "https://h.example/admin") "admin"
      ["admin", "administrator", "console", "dashboard", "panel", "manage"]
      (by decide)).1 ⟨"admin", by decide, by decide⟩

/-! ## C5: the classification priority is the maximum over matches -/

/-- The sublist of category rules a URL matches, in table order. -/
def matchedRules (url : String) : List CategoryRule :=
  let parsed := urlparse url
  let path := strLower parsed.path
  let query := strLower parsed.query
  file_categories.filter (ruleMatches path query (fileExtension path))

/-- The category fold is bounded below by every matched rule's priority
level and by the start level, and its result is the start priority or
some matched rule's priority. -/
theorem classifyFold_priority (path query : String) (ext? : Option String)
    (rules : List CategoryRule) :
    ∀ (cats : List String) (p : String),
      (∀ r ∈ rules.filter (ruleMatches path query ext?),
        priority_levels r.priority ≤
          priority_levels (rules.foldl (classifyStep path query ext?) (cats, p)).2) ∧
      priority_levels p ≤
          priority_levels (rules.foldl (classifyStep path query ext?) (cats, p)).2 ∧
      ((rules.foldl (classifyStep path query ext?) (cats, p)).2 = p ∨
        ∃ r ∈ rules.filter (ruleMatches path query ext?),
          r.priority = (rules.foldl (classifyStep path query ext?) (cats, p)).2) := by
  induction rules with
  | nil => intro cats p; exact ⟨by simp, le_refl _, Or.inl rfl⟩
  | cons r rs ih =>
      intro cats p
      by_cases hm : ruleMatches path query ext? r = true
      · have hstep : classifyStep path query ext? (cats, p) r =
            (cats ++ [r.name],
             if priority_levels r.priority > priority_levels p
             then r.priority else p) := by
          unfold classifyStep
          rw [if_pos hm]
        have hfold : (r :: rs).foldl (classifyStep path query ext?) (cats, p) =
            rs.foldl (classifyStep path query ext?)
              (cats ++ [r.name],
               if priority_levels r.priority > priority_levels p
               then r.priority else p) := by
          rw [List.foldl_cons, hstep]
        have hfilter : (r :: rs).filter (ruleMatches path query ext?) =
            r :: rs.filter (ruleMatches path query ext?) :=
          List.filter_cons_of_pos hm
        set p' := if priority_levels r.priority > priority_levels p
                  then r.priority else p with hp'
        obtain ⟨ih1, ih2, ih3⟩ := ih (cats ++ [r.name]) p'
        have hrp : priority_levels r.priority ≤ priority_levels p' := by
          rw [hp']
          split
          · exact le_refl _
          · omega
        have hpp : priority_levels p ≤ priority_levels p' := by
          rw [hp']
          split
          · omega
          · exact le_refl _
        refine ⟨?_, ?_, ?_⟩
        · intro r' hr'
          rw [hfilter] at hr'
          rcases List.mem_cons.mp hr' with rfl | hr'
          · rw [hfold]
            exact le_trans hrp ih2
          · rw [hfold]
            exact ih1 r' hr'
        · rw [hfold]
          exact le_trans hpp ih2
        · rw [hfold, hfilter]
          rcases ih3 with heq | ⟨r', hr', heq⟩
          · rw [heq, hp']
            by_cases hgt : priority_levels r.priority > priority_levels p
            · rw [if_pos hgt]
              exact Or.inr ⟨r, List.mem_cons_self .., rfl⟩
            · rw [if_neg hgt]
              exact Or.inl rfl
          · exact Or.inr ⟨r', List.mem_cons_of_mem _ hr', heq⟩
      · have hstep : classifyStep path query ext? (cats, p) r = (cats, p) := by
          unfold classifyStep
          rw [if_neg hm]
        have hfold : (r :: rs).foldl (classifyStep path query ext?) (cats, p) =
            rs.foldl (classifyStep path query ext?) (cats, p) := by
          rw [List.foldl_cons, hstep]
        have hfilter : (r :: rs).filter (ruleMatches path query ext?) =
            rs.filter (ruleMatches path query ext?) :=
          List.filter_cons_of_neg (by simpa using hm)
        rw [hfold, hfilter]
        exact ih cats p

/-- The category fold accumulates exactly the matched rule names. -/
theorem classifyFold_categories (path query : String) (ext? : Option String)
    (rules : List CategoryRule) :
    ∀ (cats : List String) (p : String),
      (rules.foldl (classifyStep path query ext?) (cats, p)).1 =
        cats ++ (rules.filter (ruleMatches path query ext?)).map CategoryRule.name := by
  induction rules with
  | nil => intro cats p; simp
  | cons r rs ih =>
      intro cats p
      by_cases hm : ruleMatches path query ext? r = true
      · rw [List.foldl_cons,
            show classifyStep path query ext? (cats, p) r =
              (cats ++ [r.name],
               if priority_levels r.priority > priority_levels p
               then r.priority else p) by unfold classifyStep; rw [if_pos hm],
            List.filter_cons_of_pos hm, ih]
        simp
      · rw [List.foldl_cons,
            show classifyStep path query ext? (cats, p) r = (cats, p) by
              unfold classifyStep; rw [if_neg hm],
            List.filter_cons_of_neg (by simpa using hm), ih]

/-- C5: for every URL, classify_url's priority is the maximum (under
critical > high > medium > low) of the priorities of all matched
categories — an upper bound that is attained, falling back to low when
nothing matches — and the categories list is exactly the matched rules. -/
theorem classify_url_priority_max (url : String) :
    (∀ r ∈ matchedRules url,
        priority_levels r.priority ≤ priority_levels (classify_url url).priority) ∧
    ((classify_url url).priority = "low" ∨
      ∃ r ∈ matchedRules url, r.priority = (classify_url url).priority) ∧
    (matchedRules url = [] → (classify_url url).priority = "low") ∧
    (classify_url url).categories = (matchedRules url).map CategoryRule.name := by
  have hp : (classify_url url).priority =
      (file_categories.foldl
        (classifyStep (strLower (urlparse url).path) (strLower (urlparse url).query)
          (fileExtension (strLower (urlparse url).path)))
        ([], "low")).2 := rfl
  have hc : (classify_url url).categories =
      (file_categories.foldl
        (classifyStep (strLower (urlparse url).path) (strLower (urlparse url).query)
          (fileExtension (strLower (urlparse url).path)))
        ([], "low")).1 := rfl
  have hm : matchedRules url = file_categories.filter
      (ruleMatches (strLower (urlparse url).path) (strLower (urlparse url).query)
        (fileExtension (strLower (urlparse url).path))) := rfl
  obtain ⟨h1, h2, h3⟩ := classifyFold_priority (strLower (urlparse url).path)
    (strLower (urlparse url).query)
    (fileExtension (strLower (urlparse url).path)) file_categories [] "low"
  refine ⟨?_, ?_, ?_, ?_⟩
  · intro r hr
    rw [hp]
    exact h1 r (hm ▸ hr)
  · rw [hp, hm]
    exact h3
  · intro hnil
    rw [hp]
    rcases h3 with heq | ⟨r, hr, _⟩
    · exact heq
    · rw [hm] at hnil
      rw [hnil] at hr
      cases hr
  · rw [hc, hm,
        classifyFold_categories (strLower (urlparse url).path)
          (strLower (urlparse url).query)
          (fileExtension (strLower (urlparse url).path)) file_categories [] "low"]
    rfl

/-- Witness for C5: a URL matching no category classifies as low. -/
theorem classify_url_priority_max_witness :
    (classify_url "https://plain.example/zz").priority = "low" :=
  (classify_url_priority_max "https://plain.example/zz").2.2.1 (by decide)

/-! ## C8: what verify_takeover keeps

The claim asserts that a candidate with no fingerprint match is kept in
the result at medium confidence.  The source appends a candidate only
inside the fingerprint-match branch, so unmatched candidates are
dropped from the returned list (the no-throw half of the claim does
hold: the embedding is total and an all-failing fetch yields `[]`). -/

/-- A concrete medium-confidence candidate from a CNAME match. -/
def herokuCandidate : TakeoverCandidate :=
  { subdomain := "old-app.example.com", cname := "old-app.herokuapp.com",
    service := "heroku", confidence := "medium" }

/-- C8 counterexample: when every fetch fails, verify_takeover returns
the empty list, so the medium-confidence input candidate is dropped
rather than kept. -/
theorem verify_takeover_counterexample :
    verify_takeover (fun _ => none) [herokuCandidate] = [] ∧
    herokuCandidate.confidence = "medium" := by
  exact ⟨rfl, rfl⟩

/-- C8 (amended): verify_takeover never throws — it is total, and when
every fetch fails it returns the empty list — but a candidate with no
fingerprint match is dropped, not kept: every returned candidate has
been promoted to high confidence with a recorded fingerprint. -/
theorem verify_takeover_keeps_only_verified
    (fetch : String → Option FetchResp) (ts : List TakeoverCandidate) :
    (∀ u ∈ verify_takeover fetch ts,
        u.confidence = "high" ∧ u.fingerprint.isSome = true) ∧
    verify_takeover (fun _ => none) ts = [] := by
  constructor
  · intro u hu
    rcases List.mem_filterMap.mp hu with ⟨t, ht, hval⟩
    have hmatched : ∀ (protocol : String) (t' : TakeoverCandidate),
        tryProtocol fetch t protocol = ProtocolAttempt.matched t' →
        t'.confidence = "high" ∧ t'.fingerprint.isSome = true := by
      intro protocol t' htry
      unfold tryProtocol at htry
      cases hfetch : fetch (protocolUrl protocol t.subdomain) with
      | none => rw [hfetch] at htry; cases htry
      | some resp =>
          rw [hfetch] at htry
          cases hfind : (responseSignatures t.service).find?
              (fun signature =>
                strContains (strLower resp.text) (strLower signature)) with
          | none => simp only [hfind] at htry; cases htry
          | some signature =>
              simp only [hfind, ProtocolAttempt.matched.injEq] at htry
              rw [← htry]
              exact ⟨rfl, rfl⟩
    have hhttp : ∀ hv : protocolResult (tryProtocol fetch t "http") = some u,
        u.confidence = "high" ∧ u.fingerprint.isSome = true := by
      intro hv
      cases h2 : tryProtocol fetch t "http" with
      | matched t' =>
          rw [h2] at hv
          replace hv : some t' = some u := hv
          simp only [Option.some.injEq] at hv
          exact hv ▸ hmatched "http" t' h2
      | noMatch =>
          rw [h2] at hv
          replace hv : (none : Option TakeoverCandidate) = some u := hv
          cases hv
      | errored =>
          rw [h2] at hv
          replace hv : (none : Option TakeoverCandidate) = some u := hv
          cases hv
    unfold verifyOne at hval
    cases h1 : tryProtocol fetch t "https" with
    | matched t' =>
        rw [h1] at hval
        replace hval : some t' = some u := hval
        simp only [Option.some.injEq] at hval
        exact hval ▸ hmatched "https" t' h1
    | noMatch =>
        rw [h1] at hval
        replace hval : (if (t.confidence == "high") = true then none
            else protocolResult (tryProtocol fetch t "http")) = some u := hval
        by_cases hconf : (t.confidence == "high") = true
        · rw [if_pos hconf] at hval; cases hval
        · rw [if_neg hconf] at hval
          exact hhttp hval
    | errored =>
        rw [h1] at hval
        replace hval : protocolResult (tryProtocol fetch t "http") = some u := hval
        exact hhttp hval
  · refine List.filterMap_eq_nil_iff.mpr ?_
    intro t ht
    rfl

/-- The promoted candidate that the C8 witness expects back. -/
def herokuVerified : TakeoverCandidate :=
  { herokuCandidate with
    confidence := "high",
    url := some "https://old-app.example.com",
    status_code := some (404 : Int),
    fingerprint := some "no-such-app.html" }

/-- Witness for C8 (amended): a fetch answering the heroku fingerprint
promotes the candidate, and the returned entry is high confidence. -/
theorem verify_takeover_keeps_only_verified_witness :
    herokuVerified.confidence = "high" ∧
    herokuVerified.fingerprint.isSome = true :=
  (verify_takeover_keeps_only_verified
      (fun u => if u == "https://old-app.example.com"
                then some { status_code := 404, text := "See no-such-app.html" }
                else none)
      [herokuCandidate]).1 herokuVerified (by decide)

/-! ## C1 and C2: the new_flags block of the differ

At src/monitor.py:444-448 the differ surfaces every flag of the *new*
record with severity high, with no comparison against the old record's
flag messages (the message-set comparison the spec describes exists
only in `HTTPMonitor.compare_results`, which the baseline pipeline does
not call).  Hence `diff(b, b)` is not all-empty whenever an endpoint
carries a high-severity flag, and a persisting high flag is re-surfaced
on every diff. -/

/-- Diffing a record against itself leaves only the (unconditionally
re-surfaced) high-severity flags of the record. -/
theorem computeEndpointChanges_self (r : ProbeResult) :
    computeEndpointChanges r r =
      { new_flags := if (r.flags.filter highSeverity).isEmpty then none
                     else some (r.flags.filter highSeverity) } := by
  unfold computeEndpointChanges
  have h0 : ¬ (10 : ℚ) <
      |((r.body_length : ℚ)) - ((r.body_length : ℚ))| / ((r.body_length : ℚ)) * 100 := by
    rw [sub_self, abs_zero, zero_div, zero_mul]
    norm_num
  simp [h0, filter_not_contains_self]

/-- The endpoint-loop body on the diagonal: an entry appears exactly
when the record carries a high-severity flag. -/
theorem endpointDelta_self (eps : List (String × ProbeResult)) (k : String) :
    endpointDelta eps eps k = none ↔
      (lookupD k eps).flags.filter highSeverity = [] := by
  simp only [endpointDelta]
  rw [computeEndpointChanges_self]
  by_cases hc : ((lookupD k eps).flags.filter highSeverity).isEmpty = true
  · rw [if_pos (by simp [EndpointChanges.isEmpty, hc])]
    simp [List.isEmpty_iff.mp hc]
  · rw [if_neg (by simp [EndpointChanges.isEmpty, hc])]
    constructor
    · intro h
      cases h
    · intro h
      exact absurd (show ((lookupD k eps).flags.filter highSeverity).isEmpty = true by
        rw [h]; rfl) hc

/-- The JS-file loop body vanishes on the diagonal. -/
theorem jsDelta_self (js : List (String × JsFileData)) (k : String) :
    jsDelta js js k = none := by
  simp [jsDelta]

/-- C1 counterexample data: a baseline whose single endpoint carries a
high-severity flag. -/
def c1Baseline : Baseline :=
  { domain := "example.com", timestamp := "t",
    subdomains := ["a.example.com"],
    endpoints := [("https://a.example/admin",
      { emptyProbe "https://a.example/admin" with
        status_code := some 200,
        reachable := true,
        flags := [{ type := "high_value", category := some "admin",
                    message := "High-value target: admin (admin in URL)",
                    severity := some "high" }] })],
    javascript_files := [], subdomain_takeovers := [] }

/-- C1 counterexample: diffing this baseline against itself yields a
non-empty changed_endpoints list, so `diff(b, b)` is not all-empty. -/
theorem compare_baselines_self_counterexample :
    (compare_baselines "example.com" c1Baseline c1Baseline).changed_endpoints ≠ [] := by
  decide

/-- C1 (amended): diffing a baseline (with the well-formed unique
endpoint keys of a Python dict) against itself empties every list field
except changed_endpoints, which is empty iff no endpoint record of the
baseline carries a high-severity flag — such flags are re-surfaced as
new_flags deltas even against the identical old record. -/
theorem compare_baselines_self_diag (domain : String) (b : Baseline)
    (hnd : (b.endpoints.map Prod.fst).Nodup) :
    (compare_baselines domain b b).new_subdomains = [] ∧
    (compare_baselines domain b b).removed_subdomains = [] ∧
    (compare_baselines domain b b).new_endpoints = [] ∧
    (compare_baselines domain b b).removed_endpoints = [] ∧
    (compare_baselines domain b b).new_js_files = [] ∧
    (compare_baselines domain b b).changed_js_files = [] ∧
    (compare_baselines domain b b).new_js_endpoints = [] ∧
    (compare_baselines domain b b).new_takeovers = [] ∧
    (compare_baselines domain b b).resolved_takeovers = [] ∧
    ((compare_baselines domain b b).changed_endpoints = [] ↔
      ∀ p ∈ b.endpoints, p.2.flags.filter highSeverity = []) := by
  have hjs : (setInter (b.javascript_files.map Prod.fst)
      (b.javascript_files.map Prod.fst)).filterMap
        (jsDelta b.javascript_files b.javascript_files) = [] :=
    List.filterMap_eq_nil_iff.mpr (fun a _ => jsDelta_self _ _)
  refine ⟨setDiff_self _, setDiff_self _, setDiff_self _, setDiff_self _,
          setDiff_self _, ?_, ?_, ?_, setDiff_self _, ?_⟩
  · show ((setInter (b.javascript_files.map Prod.fst)
        (b.javascript_files.map Prod.fst)).filterMap
          (jsDelta b.javascript_files b.javascript_files)).map Prod.fst = []
    rw [hjs]
    rfl
  · show ((setInter (b.javascript_files.map Prod.fst)
        (b.javascript_files.map Prod.fst)).filterMap
          (jsDelta b.javascript_files b.javascript_files)).flatMap Prod.snd = []
    rw [hjs]
    rfl
  · show (setDiff ((b.subdomain_takeovers.map (·.subdomain)).dedup)
        ((b.subdomain_takeovers.map (·.subdomain)).dedup)).filterMap
          (lastWithSubdomain b.subdomain_takeovers) = []
    rw [setDiff_self]
    rfl
  · show (setInter (b.endpoints.map Prod.fst) (b.endpoints.map Prod.fst)).filterMap
        (endpointDelta b.endpoints b.endpoints) = [] ↔ _
    rw [setInter_self, List.filterMap_eq_nil_iff]
    constructor
    · intro h p hp
      have hk : p.1 ∈ b.endpoints.map Prod.fst := List.mem_map.mpr ⟨p, hp, rfl⟩
      have hdel := (endpointDelta_self b.endpoints p.1).mp
        (h p.1 (List.mem_dedup.mpr hk))
      have hl : b.endpoints.lookup p.1 = some p.2 :=
        lookup_eq_of_nodup _ _ _ hnd (by rw [Prod.mk.eta]; exact hp)
      have hlp : lookupD p.1 b.endpoints = p.2 := by
        unfold lookupD
        rw [hl]
      rw [hlp] at hdel
      exact hdel
    · intro h k hk
      rw [endpointDelta_self]
      exact h (k, lookupD k b.endpoints)
        (lookupD_mem _ _ (List.mem_dedup.mp hk))

/-- A baseline with one clean endpoint, for the C1 witness. -/
def cleanBaseline : Baseline :=
  { domain := "example.com", timestamp := "t",
    subdomains := ["www.example.com"],
    endpoints := [("https://www.example.com",
      { emptyProbe "https://www.example.com" with
        status_code := some 200, reachable := true })],
    javascript_files := [], subdomain_takeovers := [] }

/-- Witness for C1 (amended) at a concrete baseline. -/
theorem compare_baselines_self_diag_witness :
    (compare_baselines "example.com" cleanBaseline cleanBaseline).new_subdomains = [] :=
  (compare_baselines_self_diag "example.com" cleanBaseline (by decide)).1

/-- C2 counterexample data: the high flag that persists unchanged. -/
def c2Flag : Flag :=
  { type := "high_value", category := some "admin",
    message := "High-value target: admin (admin in URL)",
    severity := some "high" }

/-- C2 counterexample data: the same record, old and new, carrying
`c2Flag` (and a title difference so an entry exists either way). -/
def c2Record : ProbeResult :=
  { emptyProbe "https://a.example/admin" with
    status_code := some 200, reachable := true, flags := [c2Flag] }

/-- C2 counterexample data: a baseline holding `c2Record`. -/
def c2Baseline : Baseline :=
  { domain := "example.com", timestamp := "t", subdomains := [],
    endpoints := [("https://a.example/admin", c2Record)],
    javascript_files := [], subdomain_takeovers := [] }

/-- C2 counterexample: the old record's flags contain the very message
of `c2Flag`, so under the claim no new_flags delta may surface it; the
differ still reports it. -/
theorem compare_baselines_new_flags_counterexample :
    ((compare_baselines "example.com" c2Baseline c2Baseline).changed_endpoints.map
        (fun ce => ce.changes.new_flags)) = [some [c2Flag]] ∧
    c2Flag.message ∈ c2Record.flags.map (fun f => f.message) := by
  decide

/-- C2 (amended): a changed-endpoint entry's new_flags delta is exactly
the high-severity flags of the new record — no message comparison
against the old record's flags takes place — and any URL present in
both baselines whose new record carries a high-severity flag produces
such an entry. -/
theorem compare_baselines_new_flags (domain : String) (o n : Baseline) :
    (∀ ce ∈ (compare_baselines domain o n).changed_endpoints,
        ce.changes.new_flags =
          if (ce.new.flags.filter highSeverity).isEmpty then none
          else some (ce.new.flags.filter highSeverity)) ∧
    (∀ url ∈ setInter (o.endpoints.map Prod.fst) (n.endpoints.map Prod.fst),
        (lookupD url n.endpoints).flags.filter highSeverity ≠ [] →
        ∃ ce ∈ (compare_baselines domain o n).changed_endpoints,
          ce.url = url ∧
          ce.changes.new_flags =
            some ((lookupD url n.endpoints).flags.filter highSeverity)) := by
  constructor
  · intro ce hce
    rcases List.mem_filterMap.mp hce with ⟨k, hk, hval⟩
    simp only [endpointDelta] at hval
    split at hval
    · cases hval
    · simp only [Option.some.injEq] at hval
      rw [← hval]
      rfl
  · intro url hurl hne
    have hnf : (computeEndpointChanges (lookupD url o.endpoints)
        (lookupD url n.endpoints)).new_flags =
        some ((lookupD url n.endpoints).flags.filter highSeverity) := by
      show (if ((lookupD url n.endpoints).flags.filter highSeverity).isEmpty
          then none
          else some ((lookupD url n.endpoints).flags.filter highSeverity)) = _
      rw [if_neg (by simpa [List.isEmpty_iff] using hne)]
    have hempty : (computeEndpointChanges (lookupD url o.endpoints)
        (lookupD url n.endpoints)).isEmpty = false := by
      unfold EndpointChanges.isEmpty
      rw [hnf]
      simp
    refine ⟨{ url := url,
              changes := computeEndpointChanges (lookupD url o.endpoints)
                (lookupD url n.endpoints),
              old := lookupD url o.endpoints,
              new := lookupD url n.endpoints }, ?_, rfl, hnf⟩
    refine List.mem_filterMap.mpr ⟨url, hurl, ?_⟩
    simp only [endpointDelta]
    rw [hempty]
    rfl

/-- Old baseline for the C2 witness: same URL, no flags. -/
def c2OldBaseline : Baseline :=
  { domain := "example.com", timestamp := "t", subdomains := [],
    endpoints := [("https://a.example/admin",
      { emptyProbe "https://a.example/admin" with
        status_code := some 403, reachable := true })],
    javascript_files := [], subdomain_takeovers := [] }

/-- Witness for C2 (amended): the shared URL of the two baselines gets
an entry whose new_flags is exactly the new record's high flags. -/
theorem compare_baselines_new_flags_witness :
    ∃ ce ∈ (compare_baselines "example.com" c2OldBaseline c2Baseline).changed_endpoints,
      ce.url = "https://a.example/admin" ∧
      ce.changes.new_flags =
        some ((lookupD "https://a.example/admin" c2Baseline.endpoints).flags.filter
          highSeverity) :=
  (compare_baselines_new_flags "example.com" c2OldBaseline c2Baseline).2
    "https://a.example/admin" (by decide) (by decide)

end BBMon
